import Mathlib

/-!
Verification of the EasySwitch payment-aggregation SDK specification.

The Python sources under `easyswitch/` are shallowly embedded below:
pure functions become Lean functions, fallible code returns `Except`,
the mutable token cache of the Airtel Money adapter is passed as explicit
state, network I/O is represented by passing the (would-be) HTTP response
as an explicit argument, and Python `float` amounts are modelled as `ℚ`.
The module `easyswitch.adapters.base` (`BaseAdapter`, `AdaptersRegistry`)
is not part of the given sources; the few pieces of it that the claims
need are modelled from the specification and marked as such.
-/

/-- Enumeration `Provider` from `easyswitch/types.py` (the five declared members). -/
inductive Provider where
  | SEMOA
  | BIZAO
  | CINETPAY
  | PAYGATE
  | FEDAPAY
deriving DecidableEq, Repr

/-- Enumeration `Currency` from `easyswitch/types.py` (the nine declared members). -/
inductive Currency where
  | XOF
  | XAF
  | NGN
  | GHS
  | EUR
  | USD
  | CDF
  | GNF
  | KMF
deriving DecidableEq, Repr

/-- The member names of the `Currency` enumeration (`Currency.__members__`). -/
def Currency.memberNames : List String :=
  ["XOF", "XAF", "NGN", "GHS", "EUR", "USD", "CDF", "GNF", "KMF"]

/-- Enumeration `TransactionStatus` from `easyswitch/types.py`. -/
inductive TransactionStatus where
  | PENDING
  | SUCCESSFUL
  | FAILED
  | ERROR
  | CANCELLED
  | REFUSED
  | DECLINED
  | EXPIRED
  | REFUNDED
  | PROCESSING
  | INITIATED
  | UNKNOWN
  | COMPLETED
  | TRANSFERRED
deriving DecidableEq, Repr

/-- Enumeration `TransactionType` from `easyswitch/types.py`. -/
inductive TransactionType where
  | PAYMENT
  | DEPOSIT
  | WITHDRAWAL
  | REFUND
  | TRANSFER
deriving DecidableEq, Repr

/-- Model of a decoded Python JSON value (`dict`/`list`/`str`/`int`/`bool`/`None`
payloads as handled by `json.loads`/`json.dumps` in the adapters; numbers are
restricted to integers, which covers every minor-unit amount). -/
inductive PyJson where
  | null
  | bool (b : Bool)
  | num (n : Int)
  | str (s : String)
  | arr (xs : List PyJson)
  | obj (fields : List (String × PyJson))

/-- Python truthiness of a JSON value (`None`, `False`, `0`, `""`, `[]`, `{}`
are falsy). -/
def PyJson.truthy : PyJson → Bool
  | .null => false
  | .bool b => b
  | .num n => n ≠ 0
  | .str s => s ≠ ""
  | .arr xs => ¬xs.isEmpty
  | .obj fs => ¬fs.isEmpty

/-- Python `d.get(key)` on a decoded JSON object: `none` when the receiver is
not a dict or the key is absent. -/
def PyJson.get (j : PyJson) (key : String) : Option PyJson :=
  match j with
  | .obj fs => fs.lookup key
  | _ => none

/-- Python `d.get(key, default)`. -/
def PyJson.getD (j : PyJson) (key : String) (dflt : PyJson) : PyJson :=
  (j.get key).getD dflt

/-- Python `x or y` for JSON values: `y` when `x` is falsy. -/
def PyJson.pyOr (x y : PyJson) : PyJson :=
  if x.truthy then x else y

/-- Dataclass `CustomerInfo` from `easyswitch/types.py` (metadata mapping kept
as an association list of strings). -/
structure CustomerInfo where
  phone_number : String := ""
  first_name : Option String := none
  last_name : Option String := none
  email : Option String := none
  address : Option String := none
  city : Option String := none
  country : Option String := none
  postal_code : Option String := none
  zip_code : Option String := none
  state : Option String := none
  id : Option String := none
deriving DecidableEq, Repr

/-- Dataclass `PaymentResponse` from `easyswitch/types.py`.  `amount` is `ℚ`
for Python `float`; fields that the adapters populate straight from provider
JSON are carried as `PyJson` (Python dataclasses do not coerce them), with
`.null` for `None`. -/
structure PaymentResponse where
  transaction_id : PyJson
  provider : String
  status : TransactionStatus
  amount : ℚ
  currency : PyJson
  created_at : Option PyJson := none
  expires_at : Option PyJson := none
  reference : PyJson := .null
  payment_link : PyJson := .null
  transaction_token : PyJson := .null
  customer : Option CustomerInfo := none
  raw_response : PyJson := .obj []
  metadata : PyJson := .obj []

/-- Property `PaymentResponse.is_successful`: `self.status == TransactionStatus.SUCCESSFUL`. -/
def PaymentResponse.is_successful (r : PaymentResponse) : Bool :=
  r.status = TransactionStatus.SUCCESSFUL

/-- Property `PaymentResponse.is_pending`: membership of `self.status` in
`[PENDING, PROCESSING, INITIATED]`. -/
def PaymentResponse.is_pending (r : PaymentResponse) : Bool :=
  r.status ∈ [TransactionStatus.PENDING, TransactionStatus.PROCESSING,
    TransactionStatus.INITIATED]

/-- Property `PaymentResponse.is_failed`: membership of `self.status` in
`[FAILED, CANCELLED, EXPIRED]`. -/
def PaymentResponse.is_failed (r : PaymentResponse) : Bool :=
  r.status ∈ [TransactionStatus.FAILED, TransactionStatus.CANCELLED,
    TransactionStatus.EXPIRED]

/-- Python `str.lower()` (ASCII case folding; the status vocabularies and
header names in the sources are ASCII). -/
def pyLower (s : String) : String :=
  String.mk (s.data.map Char.toLower)

/-- UTF-8 encoding of one character, as a list of byte values. -/
def charUtf8 (c : Char) : List Nat :=
  let n := c.toNat
  if n < 0x80 then [n]
  else if n < 0x800 then [0xc0 + n / 0x40, 0x80 + n % 0x40]
  else if n < 0x10000 then [0xe0 + n / 0x1000, 0x80 + n / 0x40 % 0x40, 0x80 + n % 0x40]
  else [0xf0 + n / 0x40000, 0x80 + n / 0x1000 % 0x40, 0x80 + n / 0x40 % 0x40, 0x80 + n % 0x40]

/-- Python `s.encode("utf-8")`: the byte values of the UTF-8 encoding. -/
def strBytes (s : String) : List Nat :=
  (s.data.map charUtf8).flatten

/-- Lowercase hexadecimal digit for `n < 16`. -/
def hexDigit (n : Nat) : Char :=
  if n < 10 then Char.ofNat (48 + n) else Char.ofNat (87 + n)

/-- Two lowercase hex digits of a byte. -/
def byteToHex (b : Nat) : String :=
  String.mk [hexDigit (b / 16 % 16), hexDigit (b % 16)]

/-- Lowercase hex string of a byte list (`hexdigest`). -/
def bytesToHex (bs : List Nat) : String :=
  String.join (bs.map byteToHex)

/-- Big-endian byte representation of `n` in exactly `k` bytes. -/
def natToBytesBE (k n : Nat) : List Nat :=
  (List.range k).map (fun i => n / 2 ^ (8 * (k - 1 - i)) % 256)

/-- Big-endian word value of a byte list. -/
def bytesToWordBE (bs : List Nat) : Nat :=
  bs.foldl (fun acc b => acc * 256 + b) 0

/-- Split a list into consecutive chunks of length `n` (the last chunk may be
shorter; `n = 0` yields no chunks). -/
def chunksOf (n : Nat) (l : List α) : List (List α) :=
  if n = 0 then []
  else
    match l with
    | [] => []
    | x :: xs => (x :: xs).take n :: chunksOf n ((x :: xs).drop n)
termination_by l.length
decreasing_by simp [List.length_drop]; omega

/-- Parameters of an SHA-2 family member (FIPS 180-4): word size, round count,
round constants, initial state, the rotation/shift amounts of the four sigma
functions, and the width of the message-length field. -/
structure Sha2Params where
  wordBits : Nat
  rounds : Nat
  K : List Nat
  H0 : List Nat
  ss0 : Nat × Nat × Nat
  ss1 : Nat × Nat × Nat
  bs0 : Nat × Nat × Nat
  bs1 : Nat × Nat × Nat
  lenBytes : Nat

/-- Right rotation of a `bits`-bit word. -/
def rotr (bits k x : Nat) : Nat :=
  (x / 2 ^ k + x % 2 ^ k * 2 ^ (bits - k)) % 2 ^ bits

/-- Lowercase sigma function: two rotations and a shift, xored. -/
def smallSigma (bits : Nat) (r : Nat × Nat × Nat) (x : Nat) : Nat :=
  rotr bits r.1 x ^^^ rotr bits r.2.1 x ^^^ x / 2 ^ r.2.2

/-- Uppercase sigma function: three rotations, xored. -/
def bigSigma (bits : Nat) (r : Nat × Nat × Nat) (x : Nat) : Nat :=
  rotr bits r.1 x ^^^ rotr bits r.2.1 x ^^^ rotr bits r.2.2 x

/-- The eight working registers of the SHA-2 compression function. -/
structure Sha2Regs where
  a : Nat
  b : Nat
  c : Nat
  d : Nat
  e : Nat
  f : Nat
  g : Nat
  h : Nat

/-- Message-schedule expansion: append `k` further words. -/
def sha2Expand (bits : Nat) (s0 s1 : Nat × Nat × Nat) : Nat → List Nat → List Nat
  | 0, ws => ws
  | k + 1, ws =>
    let n := ws.length
    let w := (ws.getD (n - 16) 0 + smallSigma bits s0 (ws.getD (n - 15) 0) +
      ws.getD (n - 7) 0 + smallSigma bits s1 (ws.getD (n - 2) 0)) % 2 ^ bits
    sha2Expand bits s0 s1 k (ws ++ [w])

/-- One round of the SHA-2 compression function. -/
def sha2Round (p : Sha2Params) (r : Sha2Regs) (kw : Nat × Nat) : Sha2Regs :=
  let size := 2 ^ p.wordBits
  let mask := size - 1
  let S1 := bigSigma p.wordBits p.bs1 r.e
  let ch := r.e &&& r.f ^^^ (r.e ^^^ mask) &&& r.g
  let t1 := (r.h + S1 + ch + kw.1 + kw.2) % size
  let S0 := bigSigma p.wordBits p.bs0 r.a
  let maj := r.a &&& r.b ^^^ r.a &&& r.c ^^^ r.b &&& r.c
  let t2 := (S0 + maj) % size
  ⟨(t1 + t2) % size, r.a, r.b, r.c, (r.d + t1) % size, r.e, r.f, r.g⟩

/-- SHA-2 compression of one message block into the chaining state. -/
def sha2Compress (p : Sha2Params) (H : List Nat) (block : List Nat) : List Nat :=
  let size := 2 ^ p.wordBits
  let ws16 := (chunksOf (p.wordBits / 8) block).map bytesToWordBE
  let ws := sha2Expand p.wordBits p.ss0 p.ss1 (p.rounds - 16) ws16
  let r0 : Sha2Regs := ⟨H.getD 0 0, H.getD 1 0, H.getD 2 0, H.getD 3 0,
    H.getD 4 0, H.getD 5 0, H.getD 6 0, H.getD 7 0⟩
  let r := (p.K.zip ws).foldl (sha2Round p) r0
  [(H.getD 0 0 + r.a) % size, (H.getD 1 0 + r.b) % size, (H.getD 2 0 + r.c) % size,
    (H.getD 3 0 + r.d) % size, (H.getD 4 0 + r.e) % size, (H.getD 5 0 + r.f) % size,
    (H.getD 6 0 + r.g) % size, (H.getD 7 0 + r.h) % size]

/-- FIPS 180-4 message padding: a `0x80` byte, zeros, and the big-endian bit
length, filling to a whole number of blocks. -/
def sha2Pad (p : Sha2Params) (msg : List Nat) : List Nat :=
  let blockBytes := 2 * p.wordBits
  let r := (msg.length + 1) % blockBytes
  let padLen := (blockBytes - p.lenBytes + blockBytes - r) % blockBytes
  msg ++ [0x80] ++ List.replicate padLen 0 ++ natToBytesBE p.lenBytes (8 * msg.length)

/-- SHA-2 digest of a byte list, as a byte list. -/
def sha2Digest (p : Sha2Params) (msg : List Nat) : List Nat :=
  let H := (chunksOf (2 * p.wordBits) (sha2Pad p msg)).foldl (sha2Compress p) p.H0
  (H.map (natToBytesBE (p.wordBits / 8))).flatten

/-- SHA-256 parameters (FIPS 180-4 §4.2.2, §5.3.3). -/
def sha256Params : Sha2Params where
  wordBits := 32
  rounds := 64
  K := [
    1116352408, 1899447441, 3049323471, 3921009573, 961987163,
    1508970993, 2453635748, 2870763221, 3624381080, 310598401,
    607225278, 1426881987, 1925078388, 2162078206, 2614888103,
    3248222580, 3835390401, 4022224774, 264347078, 604807628,
    770255983, 1249150122, 1555081692, 1996064986, 2554220882,
    2821834349, 2952996808, 3210313671, 3336571891, 3584528711,
    113926993, 338241895, 666307205, 773529912, 1294757372,
    1396182291, 1695183700, 1986661051, 2177026350, 2456956037,
    2730485921, 2820302411, 3259730800, 3345764771, 3516065817,
    3600352804, 4094571909, 275423344, 430227734, 506948616,
    659060556, 883997877, 958139571, 1322822218, 1537002063,
    1747873779, 1955562222, 2024104815, 2227730452, 2361852424,
    2428436474, 2756734187, 3204031479, 3329325298]
  H0 := [
    1779033703, 3144134277, 1013904242, 2773480762,
    1359893119, 2600822924, 528734635, 1541459225]
  ss0 := (7, 18, 3)
  ss1 := (17, 19, 10)
  bs0 := (2, 13, 22)
  bs1 := (6, 11, 25)
  lenBytes := 8

/-- SHA-512 parameters (FIPS 180-4 §4.2.3, §5.3.5). -/
def sha512Params : Sha2Params where
  wordBits := 64
  rounds := 80
  K := [
    4794697086780616226, 8158064640168781261, 13096744586834688815,
    16840607885511220156, 4131703408338449720, 6480981068601479193,
    10538285296894168987, 12329834152419229976, 15566598209576043074,
    1334009975649890238, 2608012711638119052, 6128411473006802146,
    8268148722764581231, 9286055187155687089, 11230858885718282805,
    13951009754708518548, 16472876342353939154, 17275323862435702243,
    1135362057144423861, 2597628984639134821, 3308224258029322869,
    5365058923640841347, 6679025012923562964, 8573033837759648693,
    10970295158949994411, 12119686244451234320, 12683024718118986047,
    13788192230050041572, 14330467153632333762, 15395433587784984357,
    489312712824947311, 1452737877330783856, 2861767655752347644,
    3322285676063803686, 5560940570517711597, 5996557281743188959,
    7280758554555802590, 8532644243296465576, 9350256976987008742,
    10552545826968843579, 11727347734174303076, 12113106623233404929,
    14000437183269869457, 14369950271660146224, 15101387698204529176,
    15463397548674623760, 17586052441742319658, 1182934255886127544,
    1847814050463011016, 2177327727835720531, 2830643537854262169,
    3796741975233480872, 4115178125766777443, 5681478168544905931,
    6601373596472566643, 7507060721942968483, 8399075790359081724,
    8693463985226723168, 9568029438360202098, 10144078919501101548,
    10430055236837252648, 11840083180663258601, 13761210420658862357,
    14299343276471374635, 14566680578165727644, 15097957966210449927,
    16922976911328602910, 17689382322260857208, 500013540394364858,
    748580250866718886, 1242879168328830382, 1977374033974150939,
    2944078676154940804, 3659926193048069267, 4368137639120453308,
    4836135668995329356, 5532061633213252278, 6448918945643986474,
    6902733635092675308, 7801388544844847127]
  H0 := [
    7640891576956012808, 13503953896175478587,
    4354685564936845355, 11912009170470909681,
    5840696475078001361, 11170449401992604703,
    2270897969802886507, 6620516959819538809]
  ss0 := (1, 8, 7)
  ss1 := (19, 61, 6)
  bs0 := (28, 34, 39)
  bs1 := (14, 18, 41)
  lenBytes := 16

/-- SHA-256 of a byte list (`hashlib.sha256`). -/
def sha256 (msg : List Nat) : List Nat :=
  sha2Digest sha256Params msg

/-- SHA-512 of a byte list (`hashlib.sha512`). -/
def sha512 (msg : List Nat) : List Nat :=
  sha2Digest sha512Params msg

/-- HMAC (RFC 2104) over a given hash with a given block size (`hmac.new`). -/
def hmacDigest (hash : List Nat → List Nat) (blockBytes : Nat)
    (key msg : List Nat) : List Nat :=
  let k0 := if blockBytes < key.length then hash key else key
  let k1 := k0 ++ List.replicate (blockBytes - k0.length) 0
  hash ((k1.map (Nat.xor 0x5c)) ++ hash ((k1.map (Nat.xor 0x36)) ++ msg))

/-- Hex digest of HMAC-SHA512 (`hmac.new(key, msg, hashlib.sha512).hexdigest()`). -/
def hmacSha512Hex (key msg : List Nat) : String :=
  bytesToHex (hmacDigest sha512 128 key msg)

/-- Hex digest of HMAC-SHA256 (`hmac.new(key, msg, hashlib.sha256).hexdigest()`). -/
def hmacSha256Hex (key msg : List Nat) : String :=
  bytesToHex (hmacDigest sha256 64 key msg)

/-- Stable insertion of `x` into a sorted list (after all elements `≤` it). -/
def insertSorted (le : α → α → Bool) (x : α) : List α → List α
  | [] => [x]
  | y :: ys => if le y x then y :: insertSorted le x ys else x :: y :: ys

/-- Stable sort by a boolean `≤` (Python `sorted`). -/
def sortBy (le : α → α → Bool) (l : List α) : List α :=
  l.foldl (fun acc x => insertSorted le x acc) []

/-- Code-point lexicographic comparison of character lists. -/
def charListLe : List Char → List Char → Bool
  | [], _ => true
  | _ :: _, [] => false
  | a :: as, b :: bs =>
    if a.toNat < b.toNat then true
    else if b.toNat < a.toNat then false
    else charListLe as bs

/-- Python string `<=`: code-point lexicographic order. -/
def strLeBool (a b : String) : Bool :=
  charListLe a.data b.data

/-- Hex digits of a code unit for a `\u` escape. -/
def hex4 (n : Nat) : String :=
  String.mk [hexDigit (n / 4096 % 16), hexDigit (n / 256 % 16),
    hexDigit (n / 16 % 16), hexDigit (n % 16)]

/-- JSON `\u` escape of a code point (a surrogate pair above `0xFFFF`),
as produced by `json.dumps` with its default `ensure_ascii=True`. -/
def jsonUnicodeEscape (n : Nat) : String :=
  if n < 0x10000 then "\\u" ++ hex4 n
  else
    let m := n - 0x10000
    "\\u" ++ hex4 (0xd800 + m / 0x400) ++ "\\u" ++ hex4 (0xdc00 + m % 0x400)

/-- Escape of one character inside a JSON string literal (`json.dumps` with
`ensure_ascii=True`: the two-character escapes, `\uXXXX` for other control
characters and for everything outside printable ASCII). -/
def jsonEscapeChar (c : Char) : String :=
  if c = '"' then "\\\""
  else if c = '\\' then "\\\\"
  else if c = '\n' then "\\n"
  else if c = '\t' then "\\t"
  else if c = '\r' then "\\r"
  else if c.toNat = 8 then "\\b"
  else if c.toNat = 12 then "\\f"
  else if c.toNat < 0x20 ∨ 0x7e < c.toNat then jsonUnicodeEscape c.toNat
  else String.singleton c

/-- A JSON string literal with escapes. -/
def jsonQuote (s : String) : String :=
  "\"" ++ String.join (s.data.map jsonEscapeChar) ++ "\""

mutual

/-- Serialization of a JSON value with separators `(",", ":")` and no added
whitespace, mirroring `json.dumps(..., separators=(",", ":"))` (object keys
are serialized in the order they carry; `sortKeys` below produces the
`sort_keys=True` order). -/
def PyJson.dumps : PyJson → String
  | .null => "null"
  | .bool b => if b then "true" else "false"
  | .num n => toString n
  | .str s => jsonQuote s
  | .arr xs => "[" ++ PyJson.dumpsList xs ++ "]"
  | .obj fs => "\x7b" ++ PyJson.dumpsFields fs ++ "\x7d"

/-- Comma-separated serialization of array elements. -/
def PyJson.dumpsList : List PyJson → String
  | [] => ""
  | [x] => PyJson.dumps x
  | x :: y :: rest => PyJson.dumps x ++ "," ++ PyJson.dumpsList (y :: rest)

/-- Comma-separated serialization of object members. -/
def PyJson.dumpsFields : List (String × PyJson) → String
  | [] => ""
  | [(k, v)] => jsonQuote k ++ ":" ++ PyJson.dumps v
  | (k, v) :: y :: rest =>
    jsonQuote k ++ ":" ++ PyJson.dumps v ++ "," ++ PyJson.dumpsFields (y :: rest)

end

mutual

/-- Recursively sort every object's keys (the `sort_keys=True` order:
code-point lexicographic on the key strings). -/
def PyJson.sortKeys : PyJson → PyJson
  | .arr xs => .arr (PyJson.sortKeysList xs)
  | .obj fs => .obj (sortBy (fun a b => strLeBool a.1 b.1) (PyJson.sortKeysFields fs))
  | j => j

/-- Key-sorting mapped over array elements. -/
def PyJson.sortKeysList : List PyJson → List PyJson
  | [] => []
  | x :: xs => PyJson.sortKeys x :: PyJson.sortKeysList xs

/-- Key-sorting mapped over object member values. -/
def PyJson.sortKeysFields : List (String × PyJson) → List (String × PyJson)
  | [] => []
  | (k, v) :: xs => (k, PyJson.sortKeys v) :: PyJson.sortKeysFields xs

end

/-- Python `json.dumps(payload, separators=(",", ":"), sort_keys=True)`, the
canonical serialization both `parse_webhook` implementations sign-check. -/
def PyJson.dumpsCanonical (j : PyJson) : String :=
  (j.sortKeys).dumps

/-- A Python `datetime` value as the adapters construct them: from an epoch
timestamp, from an ISO-8601 string, or `datetime.now()`. -/
inductive PyDateTime where
  | fromtimestamp (seconds : ℚ)
  | fromisoformat (s : String)
  | now
deriving DecidableEq, Repr

/-- Error taxonomy of `easyswitch/exceptions.py` (the constructors the embedded
code can raise), plus Python-level `AttributeError`/`TypeError` for operations
such as calling `.lower()` on `None`.  Each carries its message. -/
inductive ESError where
  | configurationError (message : String)
  | invalidProviderError (message : String)
  | authenticationError (message : String)
  | paymentError (message : String)
  | validationError (message : String)
  | unsupportedOperationError (provider : String)
  | attributeError (message : String)
  | typeError (message : String)
deriving DecidableEq, Repr

/-- Enumeration `LogLevel` from `easyswitch/conf/base.py`. -/
inductive LogLevel where
  | DEBUG
  | INFO
  | WARNING
  | ERROR
  | CRITICAL
deriving DecidableEq, Repr

/-- Enumeration `LogFormat` from `easyswitch/conf/base.py`. -/
inductive LogFormat where
  | PLAIN
  | JSON
deriving DecidableEq, Repr

/-- Model `LoggingConfig` from `easyswitch/conf/base.py`. -/
structure LoggingConfig where
  enabled : Bool := false
  level : LogLevel := .INFO
  file : Option String := none
  console : Bool := true
  max_size : Int := 10
  backups : Int := 5
  compress : Bool := true
  format : LogFormat := .PLAIN
  rotate : Bool := true
deriving DecidableEq, Repr

/-- Model `ProviderConfig` from `easyswitch/conf/base.py`. -/
structure ProviderConfig where
  api_key : String
  api_secret : Option String := none
  token : Option String := none
  base_url : Option String := none
  callback_url : Option String := none
  timeout : Int := 30
  environment : String := "sandbox"
  extra : List (String × PyJson) := []

/-- Model `RootConfig` from `easyswitch/conf/base.py`; `providers` is the
insertion-ordered `Dict[Provider, ProviderConfig]` as an association list. -/
structure RootConfig where
  environment : String := "sandbox"
  debug : Bool := false
  logging : LoggingConfig := {}
  default_currency : String := "XOF"
  providers : List (Provider × ProviderConfig) := []
  default_provider : Option Provider := none

/-- The kinds of adapter implementations present in `easyswitch/integrators/`. -/
inductive AdapterKind where
  | paystack
  | airtelMoney
  | fedapay
  | semoa
deriving DecidableEq, Repr

/-- Modelled from the spec: `AdaptersRegistry.get` of the absent module
`easyswitch.adapters.base` — a process-wide map from `Provider` tag to the
adapter registered for it, populated by the `@AdaptersRegistry.register()`
decorators of `easyswitch/integrators/` (Paystack, Airtel Money and FedaPay
self-register; of their tags only `FEDAPAY` is a `Provider` member, so it is
the only `Provider` key with a registered adapter).  Lookup failure for an
unregistered provider is a typed error (`.get` never returns a default
adapter). -/
def AdaptersRegistry.get : Provider → Option AdapterKind
  | .FEDAPAY => some .fedapay
  | _ => none

/-- Method `EasySwitch._validate_providers` of `easyswitch/client.py`
(lines 161-177): rejects an empty provider mapping, rejects a configured
default provider that is not among the provider keys, and otherwise defaults
`default_provider` to the first provider key.  The in-place mutation of
`self.config` is modelled by returning the updated configuration. -/
def EasySwitch.validate_providers (cfg : RootConfig) : Except ESError RootConfig :=
  match cfg.providers with
  | [] => .error (.configurationError
      "No providers configured. At least one provider must be enabled.")
  | (p₀, _) :: _ =>
    match cfg.default_provider with
    | some d =>
        if d ∈ cfg.providers.map Prod.fst then .ok cfg
        else .error (.configurationError
          "Default provider must be in configured providers.")
    | none => .ok { cfg with default_provider := some p₀ }

/-- Loop body of `EasySwitch._initialize_integrators` of `easyswitch/client.py`
(lines 179-198): for each configured provider, look its adapter up in the
registry and instantiate it; a registry lookup failure (raised as a non-
`ValueError` exception) is re-raised as `ConfigurationError`.  Since the
provider keys of a validated configuration already are `Provider` members,
the `ValueError`/`InvalidProviderError` arm is unreachable. -/
def EasySwitch.initialize_integrators :
    List (Provider × ProviderConfig) → Except ESError (List (Provider × AdapterKind))
  | [] => .ok []
  | (p, _) :: rest =>
    match AdaptersRegistry.get p with
    | some a => (EasySwitch.initialize_integrators rest).map (fun is => (p, a) :: is)
    | none => .error (.configurationError
        ("Failed to initialize provider " ++ reprStr p))

/-- The state of a constructed `EasySwitch` client: its (possibly updated)
configuration and the instantiated integrators. -/
structure EasySwitchClient where
  config : RootConfig
  integrators : List (Provider × AdapterKind)

/-- Constructor `EasySwitch.__init__` of `easyswitch/client.py` (lines 37-46):
store the configuration, then `_initialize_integrators`, which first runs
`_validate_providers`. -/
def EasySwitch.init (cfg : RootConfig) : Except ESError EasySwitchClient := do
  let cfg' ← EasySwitch.validate_providers cfg
  let ints ← EasySwitch.initialize_integrators cfg'.providers
  pure ⟨cfg', ints⟩

/-- Python truthiness of an optional string (`None` and `""` are falsy). -/
def pyStrTruthy : Option String → Bool
  | none => false
  | some s => s ≠ ""

/-- Guard for Python attribute access `value.get(...)`: succeeds exactly when
the value is a dict, otherwise `AttributeError`. -/
def pyAsDict (j : PyJson) : Except ESError PyJson :=
  match j with
  | .obj _ => .ok j
  | _ => .error (.attributeError "object has no attribute get")

/-- Guard for `status.lower()` inside `get_normalize_status(...)`: any
non-string (in particular `None` from a missing key) raises
`AttributeError`. -/
def pyStatusString (v : Option PyJson) : Except ESError String :=
  match v with
  | some (.str s) => .ok s
  | _ => .error (.attributeError "object has no attribute lower")

/-- Numeric value of a JSON scalar in Python arithmetic (`bool` is an `int`);
`none` for values whose division/float conversion raises `TypeError`. -/
def PyJson.asPyNumber : PyJson → Option ℚ
  | .num n => some (n : ℚ)
  | .bool b => some (if b then 1 else 0)
  | _ => none

/-- Python `int(x)` on a float: truncation toward zero. -/
def pyInt (q : ℚ) : Int :=
  if q < 0 then -⌊-q⌋ else ⌊q⌋

/-- Modelled from the spec: the configuration object a constructed adapter
holds (`self.config`, stored by the absent `BaseAdapter.__init__`).  Spec §3
describes `ApiCredentials` as "a superset union of all fields any provider
might need"; the optional fields below are exactly the ones the embedded
adapters read, most of them defensively via `getattr(self.config, ..., None)`
(spec §9, duck-typed probing of optional credential fields). -/
structure AdapterConfig where
  api_key : String
  callback_url : Option String := none
  client_id : Option String := none
  client_secret : Option String := none
  webhook_secret : Option String := none
deriving DecidableEq, Repr

/-- Modelled from the spec: `provider_name()` of the absent `BaseAdapter`
("a canonical attribute on the adapter", spec §4.3) for `PaystackAdapter`. -/
def PaystackAdapter.provider_name : String := "PAYSTACK"

/-- Modelled from the spec: `provider_name()` for `AirtelMoneyAdapter`. -/
def AirtelMoneyAdapter.provider_name : String := "AIRTEL_MONEY"

/-- Class attribute `PaystackAdapter.SUPPORTED_CURRENCIES`. -/
def PaystackAdapter.SUPPORTED_CURRENCIES : List Currency :=
  [.NGN, .GHS, .USD]

/-- Class attribute `PaystackAdapter.MIN_AMOUNT` (main units). -/
def PaystackAdapter.MIN_AMOUNT : Currency → Option ℚ
  | .NGN => some 50
  | .GHS => some (1 / 10)
  | .USD => some 2
  | _ => none

/-- Class attribute `PaystackAdapter.MAX_AMOUNT`. -/
def PaystackAdapter.MAX_AMOUNT : Currency → Option ℚ
  | .NGN => some 10000000
  | .GHS => some 10000000
  | .USD => some 10000000
  | _ => none

/-- The currency names `AirtelMoneyAdapter.SUPPORTED_CURRENCIES` references as
`Currency.<name>` attributes (airtel_money.py lines 26-41).  They are kept as
name strings here because not all of them are members of the `Currency`
enumeration of `easyswitch/types.py`. -/
def AirtelMoneyAdapter.SUPPORTED_CURRENCY_NAMES : List String :=
  ["UGX", "TZS", "KES", "RWF", "ZMW", "MWK", "NGN",
   "CDF", "XOF", "GHS", "BIF", "ETB", "BWP", "ZWL"]

/-- Class attribute `AirtelMoneyAdapter.MIN_AMOUNT`, keyed by currency name. -/
def AirtelMoneyAdapter.MIN_AMOUNT : String → Option ℚ
  | "UGX" => some 500
  | "TZS" => some 500
  | "KES" => some 10
  | "RWF" => some 100
  | "ZMW" => some 1
  | "MWK" => some 100
  | "NGN" => some 50
  | "CDF" => some 500
  | "XOF" => some 100
  | "GHS" => some 1
  | "BIF" => some 500
  | "ETB" => some 10
  | "BWP" => some 1
  | "ZWL" => some 100
  | _ => none

/-- Class attribute `AirtelMoneyAdapter.MAX_AMOUNT`, keyed by currency name. -/
def AirtelMoneyAdapter.MAX_AMOUNT : String → Option ℚ
  | "UGX" => some 10000000
  | "TZS" => some 10000000
  | "KES" => some 500000
  | "RWF" => some 5000000
  | "ZMW" => some 50000
  | "MWK" => some 5000000
  | "NGN" => some 1000000
  | "CDF" => some 10000000
  | "XOF" => some 5000000
  | "GHS" => some 50000
  | "BIF" => some 10000000
  | "ETB" => some 500000
  | "BWP" => some 50000
  | "ZWL" => some 10000000
  | _ => none

/-- Method `PaystackAdapter.get_normalize_status` (paystack.py lines 58-67):
dictionary lookup on the lowercased status with default `UNKNOWN`. -/
def PaystackAdapter.get_normalize_status (status : String) : TransactionStatus :=
  let s := pyLower status
  if s = "success" then .SUCCESSFUL
  else if s = "failed" then .FAILED
  else if s = "abandoned" then .CANCELLED
  else if s = "pending" then .PENDING
  else if s = "refund" then .REFUNDED
  else .UNKNOWN

/-- Method `AirtelMoneyAdapter.get_normalize_status` (airtel_money.py lines
149-160): dictionary lookup on the lowercased status code with default
`UNKNOWN`. -/
def AirtelMoneyAdapter.get_normalize_status (status : String) : TransactionStatus :=
  let s := pyLower status
  if s = "ts" then .SUCCESSFUL
  else if s = "tf" then .FAILED
  else if s = "ta" then .PENDING
  else if s = "tp" then .PENDING
  else if s = "tn" then .FAILED
  else if s = "tr" then .REFUNDED
  else if s = "tc" then .CANCELLED
  else .UNKNOWN

/-- Method `PaystackAdapter.validate_webhook` (paystack.py lines 70-78): false
on a missing/empty signature header or empty `api_key`; otherwise constant-time
comparison of the hex HMAC-SHA512 of the raw body keyed by `api_key` against
the `x-paystack-signature` header. -/
def PaystackAdapter.validate_webhook (cfg : AdapterConfig) (raw_body : List Nat)
    (headers : List (String × String)) : Bool :=
  match headers.lookup "x-paystack-signature" with
  | none => false
  | some signature =>
    if signature = "" then false
    else if cfg.api_key = "" then false
    else hmacSha512Hex (strBytes cfg.api_key) raw_body = signature

/-- Method `AirtelMoneyAdapter.validate_webhook` (airtel_money.py lines
162-176): signature from `x-airtel-signature` falling back to `x-signature`,
secret from `webhook_secret` falling back to `api_key`; false when either is
missing/empty, else comparison against the hex HMAC-SHA256 of the raw body. -/
def AirtelMoneyAdapter.validate_webhook (cfg : AdapterConfig) (raw_body : List Nat)
    (headers : List (String × String)) : Bool :=
  let sig0 := headers.lookup "x-airtel-signature"
  let signature := if pyStrTruthy sig0 then sig0 else headers.lookup "x-signature"
  let secret := if pyStrTruthy cfg.webhook_secret then cfg.webhook_secret
    else some cfg.api_key
  if ¬ pyStrTruthy signature then false
  else if ¬ pyStrTruthy secret then false
  else hmacSha256Hex (strBytes (secret.getD "")) raw_body = signature.getD ""

/-- Dataclass `WebhookEvent` from `easyswitch/types.py`; fields populated
straight from the payload are `PyJson` (with `.null` for `None`). -/
structure WebhookEvent where
  event_type : PyJson
  provider : String
  transaction_id : PyJson
  status : TransactionStatus
  amount : ℚ
  currency : PyJson
  created_at : Option PyDateTime := none
  raw_data : PyJson := .obj []
  metadata : PyJson := .obj []
  context : List (String × PyJson) := []

/-- Embedding of `datetime.fromtimestamp(v / 1000) if v else None` applied to
an optional payload value: absent or falsy gives `None`; a non-numeric truthy
value raises `TypeError` at the division. -/
def pyOptionalTimestampMs (v : Option PyJson) : Except ESError (Option PyDateTime) :=
  match v with
  | none => .ok none
  | some v =>
    if v.truthy then
      match v.asPyNumber with
      | some t => .ok (some (.fromtimestamp (t / 1000)))
      | none => .error (.typeError "unsupported operand type for division")
    else .ok none

/-- Method `PaystackAdapter.parse_webhook` (paystack.py lines 80-112): the
payload is serialized canonically, the signature is verified FIRST and a
`PaymentError` is raised on failure before any event field is extracted;
otherwise the `WebhookEvent` is assembled from the `data` object. -/
def PaystackAdapter.parse_webhook (cfg : AdapterConfig) (payload : PyJson)
    (headers : List (String × String)) : Except ESError WebhookEvent :=
  let raw_body := strBytes payload.dumpsCanonical
  if ¬ PaystackAdapter.validate_webhook cfg raw_body headers then
    .error (.paymentError "Invalid webhook signature")
  else do
    let data ← pyAsDict (payload.getD "data" (.obj []))
    let event_type := payload.getD "event" (.str "unknown_event")
    let transaction_id := (data.get "reference").getD .null
    let s ← pyStatusString (data.get "status")
    let status := PaystackAdapter.get_normalize_status s
    let amountMinor ← match ((data.getD "amount" .null).pyOr (.num 0)).asPyNumber with
      | some q => pure q
      | none => throw (.typeError "unsupported operand type for division")
    let currency := data.getD "currency" (.str "NGN")
    let metadata := (data.getD "metadata" (.obj [])).pyOr (.obj [])
    let customer ← pyAsDict (data.getD "customer" (.obj []))
    let context := [("customer_email", (customer.get "email").getD .null),
      ("authorization", data.getD "authorization" (.obj []))]
    let created_at ← pyOptionalTimestampMs (data.get "createdAt")
    pure {
      event_type := event_type,
      provider := PaystackAdapter.provider_name,
      transaction_id := transaction_id,
      status := status,
      amount := amountMinor / 100,
      currency := currency,
      created_at := created_at,
      raw_data := payload,
      metadata := metadata,
      context := context }

/-- Method `AirtelMoneyAdapter.parse_webhook` (airtel_money.py lines 178-214):
canonical serialization, signature verified FIRST with a `PaymentError` on
failure, then the event is assembled from the `transaction` object (with
`datetime.now()` when `created_at` is absent; ISO strings are kept
symbolically). -/
def AirtelMoneyAdapter.parse_webhook (cfg : AdapterConfig) (payload : PyJson)
    (headers : List (String × String)) : Except ESError WebhookEvent :=
  let raw_body := strBytes payload.dumpsCanonical
  if ¬ AirtelMoneyAdapter.validate_webhook cfg raw_body headers then
    .error (.paymentError "Invalid webhook signature")
  else do
    let transaction ← pyAsDict (payload.getD "transaction" (.obj []))
    let event_type := payload.getD "event_type" (.str "payment_notification")
    let transaction_id := ((transaction.get "id").getD .null).pyOr
      ((transaction.get "airtel_money_id").getD .null)
    let txStatus ← pyAsDict (transaction.getD "status" (.obj []))
    let code ← pyStatusString (some (txStatus.getD "code" (.str "tn")))
    let status := AirtelMoneyAdapter.get_normalize_status code
    let amount ← match (transaction.getD "amount" (.num 0)).asPyNumber with
      | some q => pure q
      | none => throw (.typeError "float() argument")
    let currency := transaction.getD "currency" (.str "NGN")
    let metadata := PyJson.obj [("message", (txStatus.get "message").getD .null),
      ("response_code", (txStatus.get "response_code").getD .null)]
    let context := [("msisdn", (transaction.get "msisdn").getD .null),
      ("country", match headers.lookup "x-country" with
        | some c => .str c
        | none => .null)]
    let created_at ← match transaction.get "created_at" with
      | some v =>
        if v.truthy then
          match v with
          | .str s => pure (some (PyDateTime.fromisoformat s))
          | _ => throw (.typeError "fromisoformat argument must be str")
        else pure (some PyDateTime.now)
      | none => pure (some PyDateTime.now)
    pure {
      event_type := event_type,
      provider := AirtelMoneyAdapter.provider_name,
      transaction_id := transaction_id,
      status := status,
      amount := amount,
      currency := currency,
      created_at := created_at,
      raw_data := payload,
      metadata := metadata,
      context := context }

/-- Dataclass `TransactionDetail` from `easyswitch/types.py` (fields the
embedded adapters read). -/
structure TransactionDetail where
  transaction_id : String
  provider : String
  amount : ℚ
  currency : Currency
  status : TransactionStatus := .PENDING
  transaction_type : TransactionType := .PAYMENT
  created_at : Option PyDateTime := none
  updated_at : Option PyDateTime := none
  completed_at : Option PyDateTime := none
  customer : Option CustomerInfo := none
  reference : Option String := none
  reason : Option String := none
  callback_url : Option String := none
  return_url : Option String := none
  metadata : List (String × PyJson) := []

/-- Modelled from the spec: `BaseAdapter.validate_transaction` of the absent
module `easyswitch.adapters.base`, called first by every `format_transaction`.
Spec §4.2: `format_transaction` "fails with a validation error if a
provider-required field ... is absent, or if amount is outside the provider's
declared `[min,max]` for that currency"; spec §3: "an adapter must reject
amounts outside this range before issuing a network call". -/
def validate_transaction (supported : List Currency)
    (minAmount maxAmount : Currency → Option ℚ) (t : TransactionDetail) :
    Except ESError Unit :=
  if t.currency ∉ supported then
    .error (.validationError "Unsupported currency")
  else
    match minAmount t.currency, maxAmount t.currency with
    | some lo, some hi =>
      if t.amount < lo ∨ hi < t.amount then
        .error (.validationError "Amount outside of provider declared range")
      else .ok ()
    | _, _ => .error (.validationError "No amount range declared for currency")

/-- Method `PaystackAdapter.format_transaction` (paystack.py lines 114-123):
validates the transaction (a pure step, before any network call), then builds
the provider payload with the amount converted to minor units
(`int(transaction.amount * 100)`). -/
def PaystackAdapter.format_transaction (cfg : AdapterConfig)
    (t : TransactionDetail) : Except ESError PyJson :=
  match validate_transaction PaystackAdapter.SUPPORTED_CURRENCIES
      PaystackAdapter.MIN_AMOUNT PaystackAdapter.MAX_AMOUNT t with
  | .error e => .error e
  | .ok _ =>
  match t.customer with
  | none => .error (.attributeError "NoneType object has no attribute email")
  | some customer =>
  .ok (.obj [
    ("amount", .num (pyInt (t.amount * 100))),
    ("email", match customer.email with
      | some e => .str e
      | none => .null),
    ("reference", match t.reference with
      | some r => .str r
      | none => .null),
    ("callback_url", match (if pyStrTruthy t.callback_url then t.callback_url
        else cfg.callback_url) with
      | some u => .str u
      | none => .null),
    ("metadata", .obj t.metadata)])

/-- Dataclass `TransactionStatusResponse` from `easyswitch/types.py`. -/
structure TransactionStatusResponse where
  transaction_id : PyJson
  provider : String
  status : TransactionStatus
  amount : ℚ
  data : PyJson := .obj []
  raw_response : PyJson := .obj []

/-- An HTTP response as the adapters consume it: `response.status` and the
decoded `response.json()`. -/
structure HttpResponse where
  status : Int
  json : PyJson

/-- Response-processing part of `PaystackAdapter.check_status` (paystack.py
lines 158-180; the `GET /transaction/verify/...` round-trip is represented by
the response argument): raises `PaymentError` when the body's `status` field
is falsy, else normalizes the transaction with the minor-unit amount divided
by 100. -/
def PaystackAdapter.check_status (resp : HttpResponse) :
    Except ESError TransactionStatusResponse :=
  match pyAsDict resp.json with
  | .error e => .error e
  | .ok data =>
  if ¬ (data.getD "status" .null).truthy then
    .error (.paymentError "Failed to verify Paystack transaction")
  else
  match pyAsDict (data.getD "data" (.obj [])) with
  | .error e => .error e
  | .ok tx =>
  match pyStatusString (tx.get "status") with
  | .error e => .error e
  | .ok s =>
  match ((tx.getD "amount" .null).pyOr (.num 0)).asPyNumber with
  | none => .error (.typeError "unsupported operand type for division")
  | some amt =>
  .ok {
    transaction_id := (tx.get "id").getD .null,
    provider := PaystackAdapter.provider_name,
    status := PaystackAdapter.get_normalize_status s,
    amount := amt / 100,
    data := tx,
    raw_response := .obj [] }

/-- Response-processing part of `PaystackAdapter.refund` (paystack.py lines
190-217): on a 2xx response whose body's `status` field is truthy, builds a
`PaymentResponse` with the refunded minor-unit amount divided by 100 (falling
back to the requested amount, then 0); otherwise raises `PaymentError`. -/
def PaystackAdapter.refund (transaction_id : String) (amount : Option ℚ)
    (resp : HttpResponse) : Except ESError PaymentResponse :=
  match pyAsDict resp.json with
  | .error e => .error e
  | .ok data =>
  if 200 ≤ resp.status ∧ resp.status < 300 ∧ (data.getD "status" .null).truthy then
    match pyAsDict (data.getD "data" (.obj [])) with
    | .error e => .error e
    | .ok refund_data =>
    match pyAsDict (refund_data.getD "transaction" (.obj [])) with
    | .error e => .error e
    | .ok txObj =>
    match pyStatusString (refund_data.get "status") with
    | .error e => .error e
    | .ok s =>
    match (if (refund_data.getD "amount" .null).truthy then
        (refund_data.getD "amount" .null).asPyNumber
      else some (amount.getD 0)) with
    | none => .error (.typeError "unsupported operand type for division")
    | some amt =>
    .ok {
      transaction_id := .str transaction_id,
      reference := txObj.getD "reference" (.str ("refund-" ++ transaction_id)),
      provider := PaystackAdapter.provider_name,
      status := PaystackAdapter.get_normalize_status s,
      amount := amt / 100,
      currency := refund_data.getD "currency" (.str "NGN"),
      metadata := refund_data,
      raw_response := data }
  else
    .error (.paymentError "Refund failed")

/-- Method `PaystackAdapter.cancel_transaction` (paystack.py lines 182-188):
always raises `UnsupportedOperationError`, for every transaction id. -/
def PaystackAdapter.cancel_transaction (_transaction_id : String) :
    Except ESError Unit :=
  .error (.unsupportedOperationError PaystackAdapter.provider_name)

/-- Method `AirtelMoneyAdapter.cancel_transaction` (airtel_money.py lines
323-325): always raises `UnsupportedOperationError`. -/
def AirtelMoneyAdapter.cancel_transaction (_transaction_id : String) :
    Except ESError Unit :=
  .error (.unsupportedOperationError AirtelMoneyAdapter.provider_name)

/-- The mutable token cache of `AirtelMoneyAdapter` (`self._access_token`,
`self._token_expiry`), passed as explicit state; time is rational epoch
seconds. -/
structure TokenState where
  access_token : Option String := none
  token_expiry : Option ℚ := none
deriving DecidableEq, Repr

/-- The condition under which `_get_access_token` serves the cache: both
fields truthy (a `datetime` is always truthy, an empty-string token is not)
and `datetime.now()` strictly before the cached expiry. -/
def tokenCacheFresh (st : TokenState) (now : ℚ) : Bool :=
  match st.access_token, st.token_expiry with
  | some t, some e => t ≠ "" ∧ now < e
  | _, _ => false

/-- Method `AirtelMoneyAdapter._get_access_token` (airtel_money.py lines
98-133).  The token-endpoint round-trip is represented by the `resp`
argument; the returned pair is `(returned token, updated cache)`.  A fresh
cache short-circuits before the credential check and the network call; a
refresh stores `now + (expires_in - 300)` as the new expiry. -/
def AirtelMoneyAdapter.get_access_token (cfg : AdapterConfig) (st : TokenState)
    (now : ℚ) (resp : HttpResponse) :
    Except ESError (Option String × TokenState) :=
  if tokenCacheFresh st now then
    .ok (st.access_token, st)
  else if ¬ pyStrTruthy cfg.client_id ∨ ¬ pyStrTruthy cfg.client_secret then
    .error (.paymentError "Missing client_id or client_secret")
  else if 200 ≤ resp.status ∧ resp.status < 300 then
    match pyAsDict resp.json with
    | .error e => .error e
    | .ok data =>
    let tok : Option String := match data.get "access_token" with
      | some (.str s) => some s
      | _ => none
    match (match data.get "expires_in" with
      | none => some (3600 : ℚ)
      | some v => v.asPyNumber) with
    | none => .error (.typeError "unsupported operand type for subtraction")
    | some expires_in =>
    .ok (tok, { access_token := tok, token_expiry := some (now + (expires_in - 300)) })
  else
    .error (.paymentError "Failed to obtain access token")

/-- Method `AirtelMoneyAdapter.get_headers` (airtel_money.py lines 135-147):
content-type/country/currency headers, plus a `Bearer` token obtained through
`_get_access_token` when `authorization` is set (an f-string renders a `None`
token as the text `None`). -/
def AirtelMoneyAdapter.get_headers (cfg : AdapterConfig) (st : TokenState)
    (now : ℚ) (resp : HttpResponse) (authorization : Bool)
    (country currency : Option String) :
    Except ESError (List (String × String) × TokenState) :=
  let headers := [("Content-Type", "application/json"),
    ("X-Country", country.getD "NG"), ("X-Currency", currency.getD "NGN")]
  if authorization then
    match AirtelMoneyAdapter.get_access_token cfg st now resp with
    | .error e => .error e
    | .ok (tok, st') =>
      .ok (headers ++ [("Authorization", "Bearer " ++
        (match tok with | some t => t | none => "None"))], st')
  else
    .ok (headers, st)

/-- A concrete configuration with one enabled provider and no default. -/
def cfgFedapay : RootConfig :=
  { providers := [(Provider.FEDAPAY, { api_key := "k1" })], default_provider := none }

/-- A concrete webhook payload. -/
def payloadW : PyJson :=
  .obj [("event", .str "charge.success"), ("data", .obj [("id", .num 123)])]

/-- A concrete successful Paystack verification response reporting a
minor-unit amount of 10000. -/
def c8okresp : HttpResponse :=
  ⟨200, .obj [("status", .bool true),
    ("data", .obj [("id", .num 1), ("status", .str "success"), ("amount", .num 10000)])]⟩

/-- The normalized status-check result for `c8okresp`. -/
def c8result : TransactionStatusResponse :=
  { transaction_id := .num 1,
    provider := PaystackAdapter.provider_name,
    status := .SUCCESSFUL,
    amount := (10000 : ℚ) / 100,
    data := .obj [("id", .num 1), ("status", .str "success"), ("amount", .num 10000)],
    raw_response := .obj [] }

/-- A concrete successful Paystack refund response whose reported amount is
the (falsy) minor-unit amount 0. -/
def c8zeroresp : HttpResponse :=
  ⟨200, .obj [("status", .bool true),
    ("data", .obj [("amount", .num 0), ("status", .str "success"),
      ("transaction", .obj [])])]⟩

/-- A token cache holding a non-empty token that expires at time 1000. -/
def stFreshW : TokenState :=
  { access_token := some "tok", token_expiry := some 1000 }

/-- An empty token cache. -/
def stStaleW : TokenState := {}

/-- An Airtel Money adapter configuration with OAuth client credentials. -/
def cfgAirtelW : AdapterConfig :=
  { api_key := "k", client_id := some "cid", client_secret := some "sec" }

/-- A concrete successful token-endpoint response with a one-hour TTL. -/
def tokenRespW : HttpResponse :=
  ⟨200, .obj [("access_token", .str "newtok"), ("expires_in", .num 3600)]⟩

/-- The token cache after refreshing at time 500 from `tokenRespW`. -/
def stRefreshedW : TokenState :=
  { access_token := some "newtok",
    token_expiry := some ((500 : ℚ) + (((3600 : Int) : ℚ) - 300)) }

/-- The headers an authorized `get_headers` builds from the fresh cache. -/
def hdrsW : List (String × String) :=
  [("Content-Type", "application/json"), ("X-Country", "NG"), ("X-Currency", "NGN"),
   ("Authorization", "Bearer " ++ "tok")]

/-- A concrete successful token-endpoint response whose declared TTL of 100
seconds is shorter than the 300-second safety buffer. -/
def shortTtlRespW : HttpResponse :=
  ⟨200, .obj [("access_token", .str "t"), ("expires_in", .num 100)]⟩

/-- The token cache after refreshing at time 0 from `shortTtlRespW`: its
expiry 0 + (100 - 300) already lies in the past. -/
def stShortW : TokenState :=
  { access_token := some "t",
    token_expiry := some ((0 : ℚ) + (((100 : Int) : ℚ) - 300)) }

/-- The headers an authorized `get_headers` builds on the refresh path from
`shortTtlRespW`. -/
def hdrsShortW : List (String × String) :=
  [("Content-Type", "application/json"), ("X-Country", "NG"), ("X-Currency", "NGN"),
   ("Authorization", "Bearer " ++ "t")]

/-- Construction fails as soon as provider validation fails. -/
theorem EasySwitch.init_error_of_validate (cfg : RootConfig) (e : ESError)
    (h : EasySwitch.validate_providers cfg = .error e) :
    EasySwitch.init cfg = .error e := by
  unfold EasySwitch.init
  rw [h]
  rfl

/-- Construction fails when provider validation succeeds and integrator
initialization fails. -/
theorem EasySwitch.init_error_of_integrators (cfg cfg' : RootConfig) (e : ESError)
    (hv : EasySwitch.validate_providers cfg = .ok cfg')
    (hi : EasySwitch.initialize_integrators cfg'.providers = .error e) :
    EasySwitch.init cfg = .error e := by
  unfold EasySwitch.init
  rw [hv]
  show EasySwitchClient.mk cfg' <$> EasySwitch.initialize_integrators cfg'.providers = _
  rw [hi]
  rfl

/-- Construction succeeds when validation and integrator initialization do. -/
theorem EasySwitch.init_ok (cfg cfg' : RootConfig) (ints : List (Provider × AdapterKind))
    (hv : EasySwitch.validate_providers cfg = .ok cfg')
    (hi : EasySwitch.initialize_integrators cfg'.providers = .ok ints) :
    EasySwitch.init cfg = .ok ⟨cfg', ints⟩ := by
  unfold EasySwitch.init
  rw [hv]
  show EasySwitchClient.mk cfg' <$> EasySwitch.initialize_integrators cfg'.providers = _
  rw [hi]
  rfl

/-- Every run of the integrator-initialization loop either fails with a
`ConfigurationError` or succeeds. -/
theorem initialize_integrators_cases (l : List (Provider × ProviderConfig)) :
    (∃ m, EasySwitch.initialize_integrators l = .error (.configurationError m)) ∨
    (∃ ints, EasySwitch.initialize_integrators l = .ok ints) := by
  induction l with
  | nil => exact Or.inr ⟨[], rfl⟩
  | cons hd tl ih =>
    obtain ⟨p, pc⟩ := hd
    cases hreg : AdaptersRegistry.get p with
    | none =>
        exact Or.inl ⟨"Failed to initialize provider " ++ reprStr p,
          by simp [EasySwitch.initialize_integrators, hreg]⟩
    | some a =>
        rcases ih with ⟨m, hm⟩ | ⟨ints, hi⟩
        · exact Or.inl ⟨m, by simp [EasySwitch.initialize_integrators, hreg, hm, Except.map]⟩
        · exact Or.inr ⟨(p, a) :: ints, by
            simp [EasySwitch.initialize_integrators, hreg, hi, Except.map]⟩

/-- Validation on an empty provider mapping fails. -/
theorem validate_providers_empty (cfg : RootConfig) (h : cfg.providers = []) :
    EasySwitch.validate_providers cfg = .error (.configurationError
      "No providers configured. At least one provider must be enabled.") := by
  unfold EasySwitch.validate_providers
  rw [h]

/-- Validation with an unknown default provider fails. -/
theorem validate_providers_bad_default (cfg : RootConfig) (p q : Provider)
    (qc : ProviderConfig) (rest : List (Provider × ProviderConfig))
    (hp : cfg.providers = (q, qc) :: rest)
    (hd : cfg.default_provider = some p) (hm : p ∉ cfg.providers.map Prod.fst) :
    EasySwitch.validate_providers cfg = .error (.configurationError
      "Default provider must be in configured providers.") := by
  unfold EasySwitch.validate_providers
  rw [hp, hd]
  rw [hp] at hm
  show (if p ∈ ((q, qc) :: rest).map Prod.fst then _ else _) = _
  exact if_neg hm

/-- Validation with a configured default provider that is among the provider
keys leaves the configuration unchanged. -/
theorem validate_providers_good_default (cfg : RootConfig) (p q : Provider)
    (qc : ProviderConfig) (rest : List (Provider × ProviderConfig))
    (hp : cfg.providers = (q, qc) :: rest)
    (hd : cfg.default_provider = some p) (hm : p ∈ cfg.providers.map Prod.fst) :
    EasySwitch.validate_providers cfg = .ok cfg := by
  unfold EasySwitch.validate_providers
  rw [hp, hd]
  rw [hp] at hm
  show (if p ∈ ((q, qc) :: rest).map Prod.fst then _ else _) = _
  exact if_pos hm

/-- Validation with no configured default provider sets the first provider key
as default. -/
theorem validate_providers_no_default (cfg : RootConfig) (q : Provider)
    (qc : ProviderConfig) (rest : List (Provider × ProviderConfig))
    (hp : cfg.providers = (q, qc) :: rest) (hd : cfg.default_provider = none) :
    EasySwitch.validate_providers cfg = .ok { cfg with default_provider := some q } := by
  unfold EasySwitch.validate_providers
  rw [hp, hd]

/-- C1: client construction raises `ConfigurationError` when zero providers are
configured; raises `ConfigurationError` when `default_provider` is set but not
among the configured providers; when no default is specified the default
becomes the first provider key in iteration order; and for every configuration,
construction either fails with a typed configuration error or yields a client
whose default provider is one of its configured providers. -/
theorem C1_client_construction_provider_validation :
    (∀ cfg : RootConfig, cfg.providers = [] →
      ∃ m, EasySwitch.init cfg = .error (.configurationError m)) ∧
    (∀ (cfg : RootConfig) (p : Provider), cfg.default_provider = some p →
      p ∉ cfg.providers.map Prod.fst →
      ∃ m, EasySwitch.init cfg = .error (.configurationError m)) ∧
    (∀ cfg cfg' : RootConfig, cfg.default_provider = none →
      EasySwitch.validate_providers cfg = .ok cfg' →
      cfg'.default_provider = (cfg.providers.map Prod.fst).head?) ∧
    (∀ cfg : RootConfig,
      (∃ m, EasySwitch.init cfg = .error (.configurationError m)) ∨
      (∃ c p, EasySwitch.init cfg = .ok c ∧
        c.config.default_provider = some p ∧
        p ∈ c.config.providers.map Prod.fst)) := by
  refine ⟨?_, ?_, ?_, ?_⟩
  · intro cfg h
    exact ⟨_, EasySwitch.init_error_of_validate cfg _ (validate_providers_empty cfg h)⟩
  · intro cfg p hd hmem
    rcases hp : cfg.providers with _ | ⟨⟨q, qc⟩, rest⟩
    · exact ⟨_, EasySwitch.init_error_of_validate cfg _ (validate_providers_empty cfg hp)⟩
    · exact ⟨_, EasySwitch.init_error_of_validate cfg _
        (validate_providers_bad_default cfg p q qc rest hp hd hmem)⟩
  · intro cfg cfg' hd hv
    rcases hp : cfg.providers with _ | ⟨⟨q, qc⟩, rest⟩
    · rw [validate_providers_empty cfg hp] at hv; cases hv
    · rw [validate_providers_no_default cfg q qc rest hp hd] at hv
      cases hv
      simp [hp]
  · intro cfg
    rcases hp : cfg.providers with _ | ⟨⟨q, qc⟩, rest⟩
    · exact Or.inl ⟨_, EasySwitch.init_error_of_validate cfg _ (validate_providers_empty cfg hp)⟩
    · rcases hd : cfg.default_provider with _ | d
      · -- no default configured: it becomes the first provider key
        have hv := validate_providers_no_default cfg q qc rest hp hd
        have hprov : ({ cfg with default_provider := some q } : RootConfig).providers
            = cfg.providers := rfl
        rcases initialize_integrators_cases cfg.providers with ⟨m, hm⟩ | ⟨ints, hi⟩
        · exact Or.inl ⟨m, EasySwitch.init_error_of_integrators cfg _ _ hv (hprov ▸ hm)⟩
        · refine Or.inr ⟨⟨{ cfg with default_provider := some q }, ints⟩, q,
            EasySwitch.init_ok cfg _ ints hv (hprov ▸ hi), rfl, ?_⟩
          show q ∈ (cfg.providers.map Prod.fst)
          simp [hp]
      · by_cases hmem : d ∈ cfg.providers.map Prod.fst
        · have hv := validate_providers_good_default cfg d q qc rest hp hd hmem
          rcases initialize_integrators_cases cfg.providers with ⟨m, hm⟩ | ⟨ints, hi⟩
          · exact Or.inl ⟨m, EasySwitch.init_error_of_integrators cfg cfg _ hv hm⟩
          · exact Or.inr ⟨⟨cfg, ints⟩, d, EasySwitch.init_ok cfg cfg ints hv hi, hd, hmem⟩
        · exact Or.inl ⟨_, EasySwitch.init_error_of_validate cfg _
            (validate_providers_bad_default cfg d q qc rest hp hd hmem)⟩

/-- Witness for C1: the zero-provider configuration is rejected, and on a
one-provider configuration without a default the default becomes that
provider. -/
theorem C1_witness :
    (∃ m, EasySwitch.init { providers := [] } = .error (.configurationError m)) ∧
    (RootConfig.default_provider { cfgFedapay with default_provider := some Provider.FEDAPAY }
      = (cfgFedapay.providers.map Prod.fst).head?) := by
  constructor
  · exact C1_client_construction_provider_validation.1 { providers := [] } rfl
  · exact C1_client_construction_provider_validation.2.2.1 cfgFedapay
      { cfgFedapay with default_provider := some Provider.FEDAPAY } rfl rfl

/-- C10: when `config.default_provider` is `None`, construction overwrites it
with the first configured provider (the caller-supplied `RootConfig` object is
mutated in place; the mutation is modelled by the configuration returned from
`_validate_providers`, the only code construction runs that writes to the
configuration), and every other field of the configuration is left unchanged. -/
theorem C10_construction_mutates_default_provider (cfg cfg' : RootConfig)
    (hd : cfg.default_provider = none)
    (hv : EasySwitch.validate_providers cfg = .ok cfg') :
    cfg'.default_provider = (cfg.providers.map Prod.fst).head? ∧
    cfg'.environment = cfg.environment ∧
    cfg'.debug = cfg.debug ∧
    cfg'.logging = cfg.logging ∧
    cfg'.default_currency = cfg.default_currency ∧
    cfg'.providers = cfg.providers := by
  rcases hp : cfg.providers with _ | ⟨⟨q, qc⟩, rest⟩
  · rw [validate_providers_empty cfg hp] at hv; cases hv
  · rw [validate_providers_no_default cfg q qc rest hp hd] at hv
    cases hv
    exact ⟨by simp [hp], rfl, rfl, rfl, rfl, hp⟩

/-- Witness for C10 at a concrete one-provider configuration. -/
theorem C10_witness :
    ({ cfgFedapay with default_provider := some Provider.FEDAPAY } : RootConfig).default_provider
        = (cfgFedapay.providers.map Prod.fst).head? ∧
    ({ cfgFedapay with default_provider := some Provider.FEDAPAY } : RootConfig).environment
        = cfgFedapay.environment ∧
    ({ cfgFedapay with default_provider := some Provider.FEDAPAY } : RootConfig).debug
        = cfgFedapay.debug ∧
    ({ cfgFedapay with default_provider := some Provider.FEDAPAY } : RootConfig).logging
        = cfgFedapay.logging ∧
    ({ cfgFedapay with default_provider := some Provider.FEDAPAY } : RootConfig).default_currency
        = cfgFedapay.default_currency ∧
    ({ cfgFedapay with default_provider := some Provider.FEDAPAY } : RootConfig).providers
        = cfgFedapay.providers :=
  C10_construction_mutates_default_provider cfgFedapay
    { cfgFedapay with default_provider := some Provider.FEDAPAY } rfl rfl

/-- C7: for every `PaymentResponse` `r`, `is_successful` holds iff `r.status`
is `SUCCESSFUL`; `is_pending` holds iff `r.status` is one of `PENDING`,
`PROCESSING`, `INITIATED`; `is_failed` holds iff `r.status` is one of
`FAILED`, `CANCELLED`, `EXPIRED`.  Each predicate is a pure function of
`r.status` (they are Lean functions of the `status` field only). -/
theorem C7_payment_response_predicates (r : PaymentResponse) :
    (r.is_successful = true ↔ r.status = TransactionStatus.SUCCESSFUL) ∧
    (r.is_pending = true ↔
      (r.status = TransactionStatus.PENDING ∨
       r.status = TransactionStatus.PROCESSING ∨
       r.status = TransactionStatus.INITIATED)) ∧
    (r.is_failed = true ↔
      (r.status = TransactionStatus.FAILED ∨
       r.status = TransactionStatus.CANCELLED ∨
       r.status = TransactionStatus.EXPIRED)) := by
  obtain ⟨_, _, s, _⟩ := r
  cases s <;> simp [PaymentResponse.is_successful, PaymentResponse.is_pending,
    PaymentResponse.is_failed]

/-- C3: for every provider status string, status normalization is total: the
embedded `get_normalize_status` of both adapters is a total function into
`TransactionStatus` (so it never raises), and every string whose lowercasing
is outside the provider's mapped vocabulary normalizes to `UNKNOWN`. -/
theorem C3_normalize_status_total :
    (∀ s : String,
      pyLower s ∉ (["success", "failed", "abandoned", "pending", "refund"] : List String) →
      PaystackAdapter.get_normalize_status s = .UNKNOWN) ∧
    (∀ s : String,
      pyLower s ∉ (["ts", "tf", "ta", "tp", "tn", "tr", "tc"] : List String) →
      AirtelMoneyAdapter.get_normalize_status s = .UNKNOWN) := by
  constructor
  · intro s h
    simp only [List.mem_cons, List.not_mem_nil, or_false, not_or] at h
    obtain ⟨h1, h2, h3, h4, h5⟩ := h
    simp [PaystackAdapter.get_normalize_status, h1, h2, h3, h4, h5]
  · intro s h
    simp only [List.mem_cons, List.not_mem_nil, or_false, not_or] at h
    obtain ⟨h1, h2, h3, h4, h5, h6, h7⟩ := h
    simp [AirtelMoneyAdapter.get_normalize_status, h1, h2, h3, h4, h5, h6, h7]

/-- Witness for C3 at the concrete unmapped status string "weird". -/
theorem C3_witness :
    (pyLower "weird" ∉ (["success", "failed", "abandoned", "pending", "refund"] : List String) ∧
      PaystackAdapter.get_normalize_status "weird" = .UNKNOWN) ∧
    (pyLower "weird" ∉ (["ts", "tf", "ta", "tp", "tn", "tr", "tc"] : List String) ∧
      AirtelMoneyAdapter.get_normalize_status "weird" = .UNKNOWN) :=
  ⟨⟨by decide, C3_normalize_status_total.1 "weird" (by decide)⟩,
   ⟨by decide, C3_normalize_status_total.2 "weird" (by decide)⟩⟩

/-- C4: whenever signature verification fails, `parse_webhook` of either
adapter returns the `PaymentError` and no `WebhookEvent` whatsoever (the
result is the error, so no partially constructed event escapes); in the
embedded definitions the verification test is the first step, before any
field extraction. -/
theorem C4_parse_webhook_rejects_invalid_signature :
    (∀ (cfg : AdapterConfig) (payload : PyJson) (headers : List (String × String)),
      PaystackAdapter.validate_webhook cfg (strBytes payload.dumpsCanonical) headers = false →
      PaystackAdapter.parse_webhook cfg payload headers =
        .error (.paymentError "Invalid webhook signature")) ∧
    (∀ (cfg : AdapterConfig) (payload : PyJson) (headers : List (String × String)),
      AirtelMoneyAdapter.validate_webhook cfg (strBytes payload.dumpsCanonical) headers = false →
      AirtelMoneyAdapter.parse_webhook cfg payload headers =
        .error (.paymentError "Invalid webhook signature")) := by
  constructor
  · intro cfg payload headers h
    simp [PaystackAdapter.parse_webhook, h]
  · intro cfg payload headers h
    simp [AirtelMoneyAdapter.parse_webhook, h]

/-- Witness for C4: with no signature header at all, verification fails and
both parsers reject. -/
theorem C4_witness :
    (PaystackAdapter.validate_webhook { api_key := "test_key" }
        (strBytes payloadW.dumpsCanonical) [] = false ∧
      PaystackAdapter.parse_webhook { api_key := "test_key" } payloadW [] =
        .error (.paymentError "Invalid webhook signature")) ∧
    (AirtelMoneyAdapter.validate_webhook { api_key := "test_key" }
        (strBytes payloadW.dumpsCanonical) [] = false ∧
      AirtelMoneyAdapter.parse_webhook { api_key := "test_key" } payloadW [] =
        .error (.paymentError "Invalid webhook signature")) :=
  ⟨⟨rfl, C4_parse_webhook_rejects_invalid_signature.1 { api_key := "test_key" } payloadW [] rfl⟩,
   ⟨rfl, C4_parse_webhook_rejects_invalid_signature.2 { api_key := "test_key" } payloadW [] rfl⟩⟩

/-- C6: `cancel_transaction` on both adapters fails with
`UnsupportedOperationError` for every transaction id and never returns a
success value. -/
theorem C6_cancel_transaction_unsupported :
    (∀ transaction_id : String,
      PaystackAdapter.cancel_transaction transaction_id =
        .error (.unsupportedOperationError PaystackAdapter.provider_name)) ∧
    (∀ transaction_id : String,
      AirtelMoneyAdapter.cancel_transaction transaction_id =
        .error (.unsupportedOperationError AirtelMoneyAdapter.provider_name)) :=
  ⟨fun _ => rfl, fun _ => rfl⟩

/-- C2 (refutation on the code): the Airtel Money adapter's declared currency
set references `Currency.UGX` (first element of its `SUPPORTED_CURRENCIES`,
airtel_money.py line 27), but `UGX` is not a member of the `Currency`
enumeration of `easyswitch/types.py` — so not every currency the adapter
declares is a `Currency` member (and in Python, evaluating the class body
raises `AttributeError`). -/
theorem C2_airtel_declares_unknown_currency :
    "UGX" ∈ AirtelMoneyAdapter.SUPPORTED_CURRENCY_NAMES ∧
    "UGX" ∉ Currency.memberNames ∧
    ¬ (∀ c ∈ AirtelMoneyAdapter.SUPPORTED_CURRENCY_NAMES, c ∈ Currency.memberNames) := by
  refine ⟨by decide, by decide, fun h => absurd (h "UGX" (by decide)) (by decide)⟩

/-- A successful dict guard returns the value itself. -/
theorem pyAsDict_ok {j d : PyJson} (h : pyAsDict j = .ok d) : d = j := by
  unfold pyAsDict at h
  split at h
  · exact (Except.ok.inj h).symm
  · cases h

/-- The `or 0` collapse is the identity on numbers. -/
theorem pyOr_num_zero (n : Int) : (PyJson.num n).pyOr (.num 0) = .num n := by
  by_cases h : n = 0 <;> simp [PyJson.pyOr, PyJson.truthy, h]

/-- C8 (amended): `check_status` normalizes every provider-reported minor-unit
amount `n` to `n / 100` major units; `refund` does the same whenever the
reported amount is truthy (nonzero), and with a falsy (zero/absent) reported
amount divides the requested amount (defaulting to 0) by 100 instead;
`format_transaction` multiplies the major-unit amount by 100 (truncated to
`int`) on the way out. -/
theorem C8_paystack_minor_unit_normalization :
    (∀ (resp : HttpResponse) (r : TransactionStatusResponse) (n : Int),
      PaystackAdapter.check_status resp = .ok r →
      (resp.json.getD "data" (.obj [])).get "amount" = some (.num n) →
      r.amount = (n : ℚ) / 100) ∧
    (∀ (tid : String) (amount : Option ℚ) (resp : HttpResponse)
        (r : PaymentResponse) (n : Int),
      PaystackAdapter.refund tid amount resp = .ok r →
      (resp.json.getD "data" (.obj [])).getD "amount" .null = .num n →
      n ≠ 0 →
      r.amount = (n : ℚ) / 100) ∧
    (∀ (tid : String) (amount : Option ℚ) (resp : HttpResponse)
        (r : PaymentResponse),
      PaystackAdapter.refund tid amount resp = .ok r →
      ((resp.json.getD "data" (.obj [])).getD "amount" .null).truthy = false →
      r.amount = (amount.getD 0) / 100) ∧
    (∀ (cfg : AdapterConfig) (t : TransactionDetail) (p : PyJson),
      PaystackAdapter.format_transaction cfg t = .ok p →
      p.get "amount" = some (.num (pyInt (t.amount * 100)))) := by
  refine ⟨?_, ?_, ?_, ?_⟩
  · intro resp r n h ha
    unfold PaystackAdapter.check_status at h
    split at h
    · cases h
    case _ data hdata =>
      split at h
      · cases h
      · split at h
        · cases h
        case _ tx htx =>
          split at h
          · cases h
          case _ s hs =>
            have hdj := pyAsDict_ok hdata
            have htj := pyAsDict_ok htx
            subst hdj
            subst htj
            rw [show (resp.json.getD "data" (.obj [])).getD "amount" .null = .num n from by
              rw [PyJson.getD, ha]; rfl] at h
            rw [pyOr_num_zero] at h
            split at h
            · cases h
            case _ amt hamt =>
              cases h
              simp only [PyJson.asPyNumber, Option.some.injEq] at hamt
              subst hamt
              rfl
  · intro tid amount resp r n h ha hn
    unfold PaystackAdapter.refund at h
    split at h
    · cases h
    case _ data hdata =>
      split at h
      · split at h
        · cases h
        case _ refund_data hrd =>
          split at h
          · cases h
          case _ txObj htx =>
            split at h
            · cases h
            case _ s hs =>
              have hdj := pyAsDict_ok hdata
              have hrj := pyAsDict_ok hrd
              subst hdj
              subst hrj
              rw [ha] at h
              rw [show (PyJson.num n).truthy = true from by simp [PyJson.truthy, hn]] at h
              simp only [if_true] at h
              split at h
              · cases h
              case _ amt hamt =>
                cases h
                simp only [PyJson.asPyNumber, Option.some.injEq] at hamt
                subst hamt
                rfl
      · cases h
  · intro tid amount resp r h ha
    unfold PaystackAdapter.refund at h
    split at h
    · cases h
    case _ data hdata =>
      split at h
      · split at h
        · cases h
        case _ refund_data hrd =>
          split at h
          · cases h
          case _ txObj htx =>
            split at h
            · cases h
            case _ s hs =>
              have hdj := pyAsDict_ok hdata
              have hrj := pyAsDict_ok hrd
              subst hdj
              subst hrj
              rw [ha] at h
              simp only [Bool.false_eq_true, if_false] at h
              cases h
              rfl
      · cases h
  · intro cfg t p h
    unfold PaystackAdapter.format_transaction at h
    split at h
    · cases h
    · split at h
      · cases h
      · cases h
        rfl

/-- Counterexample to C8 as stated: on a refund whose provider-reported
minor-unit amount is 0 and whose requested amount is 500, the normalized
amount is 500 / 100 = 5 major units, not 0 / 100. -/
theorem C8_counterexample :
    (PaystackAdapter.refund "tx1" (some 500) c8zeroresp).toOption.map
      PaymentResponse.amount = some ((500 : ℚ) / 100) ∧
    (500 : ℚ) / 100 = 5 ∧ (500 : ℚ) / 100 ≠ (0 : ℚ) / 100 := by
  refine ⟨rfl, by norm_num, by norm_num⟩

/-- Witness for C8 at the spec's scenario D: the provider reports 10000 minor
units and the normalized amount is 100 major units. -/
theorem C8_witness : c8result.amount = (10000 : ℚ) / 100 ∧ (10000 : ℚ) / 100 = 100 :=
  ⟨C8_paystack_minor_unit_normalization.1 c8okresp c8result 10000 (by rfl) rfl,
   by norm_num⟩

/-- C9 (amended): the Airtel Money token cache.  (i) With a cached token and
the current time strictly before the cached expiry, `_get_access_token`
returns the cached token, leaves the cache unchanged, and its result does not
depend on the token-endpoint response — no network call is made.  (ii)
Otherwise a refresh on the calling path stores `now + (expires_in - 300)` as
the new expiry.  (iii) Any time at which such a refreshed cache is still
considered fresh lies more than the 300-second buffer before the
provider-declared expiry `fetch_time + expires_in` — so a token SERVED FROM
THE CACHE is never attached within the buffer.  (iv) An authorized
`get_headers` on a fresh cache attaches exactly the cached token as a Bearer
header and leaves the cache unchanged.  (v) In general an authorized
`get_headers` attaches whatever token `_get_access_token` returns,
unconditionally — in particular the just-fetched token of a refresh is
attached even when the provider-declared `expires_in` is within the buffer
(see the counterexample). -/
theorem C9_airtel_token_cache :
    (∀ (cfg : AdapterConfig) (st : TokenState) (now : ℚ) (resp resp' : HttpResponse),
      tokenCacheFresh st now = true →
      AirtelMoneyAdapter.get_access_token cfg st now resp = .ok (st.access_token, st) ∧
      AirtelMoneyAdapter.get_access_token cfg st now resp =
        AirtelMoneyAdapter.get_access_token cfg st now resp') ∧
    (∀ (cfg : AdapterConfig) (st : TokenState) (now : ℚ) (resp : HttpResponse)
        (tok : Option String) (st' : TokenState) (e : Int),
      tokenCacheFresh st now = false →
      AirtelMoneyAdapter.get_access_token cfg st now resp = .ok (tok, st') →
      resp.json.get "expires_in" = some (.num e) →
      st'.token_expiry = some (now + ((e : ℚ) - 300))) ∧
    (∀ (t0 e : ℚ) (tok : Option String) (now : ℚ),
      tokenCacheFresh ⟨tok, some (t0 + (e - 300))⟩ now = true →
      now + 300 < t0 + e) ∧
    (∀ (cfg : AdapterConfig) (st : TokenState) (now : ℚ) (resp : HttpResponse)
        (country currency : Option String) (hdrs : List (String × String))
        (st' : TokenState) (t : String),
      tokenCacheFresh st now = true →
      st.access_token = some t →
      AirtelMoneyAdapter.get_headers cfg st now resp true country currency = .ok (hdrs, st') →
      st' = st ∧ ("Authorization", "Bearer " ++ t) ∈ hdrs) ∧
    (∀ (cfg : AdapterConfig) (st : TokenState) (now : ℚ) (resp : HttpResponse)
        (country currency : Option String) (tok : Option String) (st' : TokenState),
      AirtelMoneyAdapter.get_access_token cfg st now resp = .ok (tok, st') →
      AirtelMoneyAdapter.get_headers cfg st now resp true country currency =
        .ok ([("Content-Type", "application/json"), ("X-Country", country.getD "NG"),
          ("X-Currency", currency.getD "NGN"),
          ("Authorization", "Bearer " ++ (match tok with | some t => t | none => "None"))],
          st')) := by
  refine ⟨?_, ?_, ?_, ?_, ?_⟩
  · intro cfg st now resp resp' h
    constructor <;> simp [AirtelMoneyAdapter.get_access_token, h]
  · intro cfg st now resp tok st' e h0 h he
    unfold AirtelMoneyAdapter.get_access_token at h
    rw [h0] at h
    simp only [Bool.false_eq_true, if_false] at h
    split at h
    · cases h
    · split at h
      · split at h
        · cases h
        case _ data hdata =>
          have hdj := pyAsDict_ok hdata
          subst hdj
          rw [he] at h
          simp only [PyJson.asPyNumber] at h
          cases h
          rfl
      · cases h
  · intro t0 e tok now h
    cases tok with
    | none => simp [tokenCacheFresh] at h
    | some t =>
      simp only [tokenCacheFresh, decide_eq_true_eq] at h
      have := h.2
      linarith
  · intro cfg st now resp country currency hdrs st' t hfresh htok h
    unfold AirtelMoneyAdapter.get_headers at h
    simp only [if_true] at h
    rw [show AirtelMoneyAdapter.get_access_token cfg st now resp = .ok (st.access_token, st) from by
      simp [AirtelMoneyAdapter.get_access_token, hfresh]] at h
    rw [htok] at h
    cases h
    exact ⟨rfl, by simp⟩
  · intro cfg st now resp country currency tok st' h
    unfold AirtelMoneyAdapter.get_headers
    simp only [if_true]
    rw [h]
    rfl

/-- Witness for C9 at concrete times and responses: a cache fresh at time 500
with expiry 1000 is served as-is; an empty cache refreshed at time 500 from a
3600-second-TTL response expires at 500 + (3600 - 300) = 3800; a cache
refreshed at time 1000 with TTL 3600 that is still fresh at time 2000
satisfies 2000 + 300 < 1000 + 3600; and authorized headers carry the cached
Bearer token. -/
theorem C9_witness :
    (AirtelMoneyAdapter.get_access_token cfgAirtelW stFreshW 500 tokenRespW =
      .ok (stFreshW.access_token, stFreshW)) ∧
    (stRefreshedW.token_expiry = some ((500 : ℚ) + (((3600 : Int) : ℚ) - 300))) ∧
    ((500 : ℚ) + (((3600 : Int) : ℚ) - 300) = 3800) ∧
    ((2000 : ℚ) + 300 < 1000 + 3600) ∧
    (stFreshW = stFreshW ∧ ("Authorization", "Bearer " ++ "tok") ∈ hdrsW) ∧
    (AirtelMoneyAdapter.get_headers cfgAirtelW stFreshW 500 tokenRespW true none none =
      .ok (hdrsW, stFreshW)) :=
  ⟨(C9_airtel_token_cache.1 cfgAirtelW stFreshW 500 tokenRespW tokenRespW (by decide)).1,
   C9_airtel_token_cache.2.1 cfgAirtelW stStaleW 500 tokenRespW (some "newtok")
     stRefreshedW 3600 (by decide) (by rfl) rfl,
   by norm_num,
   C9_airtel_token_cache.2.2.1 1000 3600 (some "tok") 2000
     (decide_eq_true ⟨by decide, by norm_num⟩),
   C9_airtel_token_cache.2.2.2.1 cfgAirtelW stFreshW 500 tokenRespW none none hdrsW
     stFreshW "tok" (by decide) rfl (by rfl),
   C9_airtel_token_cache.2.2.2.2 cfgAirtelW stFreshW 500 tokenRespW none none
     (some "tok") stFreshW (by rfl)⟩

/-- Counterexample to C9 as stated: the claim's final clause says an
authorized `get_headers` "never attaches a token within the buffer of its
provider-declared expiry", but the refresh path returns the just-fetched
token unconditionally.  Concretely: authorized `get_headers` at time 0 on an
empty cache, with the token endpoint declaring `expires_in = 100`, attaches
`Bearer t` although the provider-declared expiry 0 + 100 lies within the
300-second buffer of the attach time (and the stored cache expiry
0 + (100 - 300) already lies in the past). -/
theorem C9_counterexample :
    (AirtelMoneyAdapter.get_headers cfgAirtelW stStaleW 0 shortTtlRespW true none none =
      .ok (hdrsShortW, stShortW)) ∧
    ("Authorization", "Bearer " ++ "t") ∈ hdrsShortW ∧
    ((0 : ℚ) + 100 < 0 + 300) ∧
    (stShortW.token_expiry = some ((0 : ℚ) + (((100 : Int) : ℚ) - 300)) ∧
      (0 : ℚ) + (((100 : Int) : ℚ) - 300) < 0) :=
  ⟨by rfl, by simp [hdrsShortW], by norm_num, rfl, by norm_num⟩
